import Mathlib

/-
  Verification of the DS-Visualization dashboard (src/dashboard_english.py).

  The dashboard consists of an investment simulator (proportional scaling of
  three hardcoded strategy baselines), a KPI / comparison-table presenter, and
  a set of remote-image panels loaded from a fixed base URL.

  Numeric values are modelled exactly over the rationals; the user input of the
  number control is an integer in [100, 1000000].  Image fetching is modelled
  by an oracle telling, for each URL, whether the resource is reachable.
-/

namespace Dashboard

/-- The canonical baseline capital of the backtest (line 36 of the source). -/
def base_capital : ℚ := 10000

/-- Result of the proportional-scaling computation (lines 36-42). -/
structure SimulationResult where
  multiplier : ℚ
  hodl_val : ℚ
  dca_val : ℚ
  quant_val : ℚ
deriving DecidableEq, Repr

/-- Lines 36-42: the multiplier and the three scaled final-equity values. -/
def compute (initial_investment : ℤ) : SimulationResult :=
  let multiplier : ℚ := (initial_investment : ℚ) / base_capital
  { multiplier := multiplier
    hodl_val := 46009 * multiplier
    dca_val := 31328 * multiplier
    quant_val := 18156 * multiplier }

/-- Rounding of the fraction N / D (with D positive) to the nearest
integer, ties to even.  Computed with integer arithmetic only: f is the
floor of the fraction and rem2 is twice the remainder. -/
def rndFrac (N D : ℤ) : ℤ :=
  let f := N.fdiv D
  let rem2 := 2 * (N - f * D)
  if D < rem2 then f + 1
  else if rem2 < D then f
  else if f % 2 = 0 then f else f + 1

/-- Rounding of a rational to the nearest integer, ties to even: the
rounding performed by the format specification used at lines 58, 67, 76
and 179 when printing with zero decimal places. -/
def rnd0f (v : ℚ) : ℤ := rndFrac v.num (v.den : ℤ)

/-- Rounding of the ratio p / q to the nearest tenth of a percent,
expressed in integer per-mille units. -/
def roundPermille (p q : ℤ) : ℤ := rndFrac (1000 * p) q

/-- Digit grouping: given the reversed digit list and a counter, insert a
comma after every third digit (except at the very end). -/
def commaGroupRev : List Char → Nat → List Char
  | [], _ => []
  | [c], _ => [c]
  | c :: rest, k =>
      if k = 3 then c :: ',' :: commaGroupRev rest 1
      else c :: commaGroupRev rest (k + 1)

/-- Thousands-separated decimal rendering of a natural number. -/
def commaFmt (n : Nat) : String :=
  String.mk ((commaGroupRev (Nat.repr n).toList.reverse 1).reverse)

/-- Thousands-separated decimal rendering of an integer. -/
def intCommaFmt (z : ℤ) : String :=
  if z < 0 then "-" ++ commaFmt z.natAbs else commaFmt z.natAbs

/-- The currency format used by the KPIs and the table: a dollar sign,
then the value rounded to zero decimal places with thousands separators. -/
def formatMoney (v : ℚ) : String := "$" ++ intCommaFmt (rnd0f v)

/-- One KPI metric as displayed by the st.metric calls (lines 54-80). -/
structure Metric where
  label : String
  value : String
  delta : String
  deltaColor : Option String
deriving DecidableEq, Repr

/-- Lines 56-60: the HODL KPI. -/
def hodlMetric (r : SimulationResult) : Metric :=
  { label := "Final Equity"
    value := formatMoney r.hodl_val
    delta := "Highest Return 🔥"
    deltaColor := none }

/-- Lines 65-69: the DCA KPI. -/
def dcaMetric (r : SimulationResult) : Metric :=
  { label := "Final Equity"
    value := formatMoney r.dca_val
    delta := "Sharpe Ratio 3.04 ✅"
    deltaColor := none }

/-- Lines 74-79: the Quant KPI. -/
def quantMetric (r : SimulationResult) : Metric :=
  { label := "Final Equity"
    value := formatMoney r.quant_val
    delta := "-60% vs HODL"
    deltaColor := some "inverse" }

/-- The comparison table of lines 177-183, one list per column. -/
structure TableData where
  strategyName : List String
  finalEquity : List String
  totalReturnVsHodl : List String
  riskProfile : List String
  activityLevel : List String
deriving DecidableEq, Repr

/-- Lines 177-183: the table data built from the scaled values. -/
def table_data (r : SimulationResult) : TableData :=
  { strategyName :=
      ["HODL (Buy & Hold)", "DCA (Monthly Buy)", "Quant (Active Trading)"]
    finalEquity :=
      [formatMoney r.hodl_val, formatMoney r.dca_val, formatMoney r.quant_val]
    totalReturnVsHodl := ["-", "-31.9%", "-60.5%"]
    riskProfile :=
      ["High Volatility", "Low Volatility (Sharpe 3.04)",
       "High Risk (Overfitting)"]
    activityLevel :=
      ["Passive (1 Trade)", "Passive (Monthly)", "Active (High Frequency)"] }

/-- Line 87. -/
def GITHUB_USER : String := "lucky11chances"

/-- Line 88. -/
def GITHUB_REPO : String := "bitcoin-investment-strategies-draft"

/-- Line 89. -/
def BRANCH : String := "main"

/-- Line 90: the fixed base URL of the image repository. -/
def BASE_URL : String :=
  "https://raw.githubusercontent.com/" ++ GITHUB_USER ++ "/" ++ GITHUB_REPO
    ++ "/" ++ BRANCH ++ "/visualization"

/-- Line 94: the resolved URL of a panel image. -/
def resolvedUrl (filename : String) : String := BASE_URL ++ "/" ++ filename

/-- Whether a character list contains two consecutive slashes. -/
def hasDoubleSlashList : List Char → Bool
  | '/' :: '/' :: _ => true
  | _ :: rest => hasDoubleSlashList rest
  | [] => false

/-- Whether a string contains two consecutive slashes. -/
def hasDoubleSlash (s : String) : Bool := hasDoubleSlashList s.toList

/-- A static chart panel: arguments of one render_chart call. -/
structure Panel where
  filename : String
  title : String
  explanation : String
  icon : String
deriving DecidableEq, Repr

/-- What the image column of a panel shows: the image at its URL, or the
inline error message of line 105. -/
inductive ImageSlot where
  | image (url : String)
  | error (msg : String)
deriving DecidableEq, Repr

/-- The rendered form of one panel. -/
structure PanelRender where
  header : String
  image : ImageSlot
  explanation : String
deriving DecidableEq, Repr

/-- Lines 92-111: render one panel.  The oracle `ok` tells whether the
image resource at a URL is reachable; on failure the try/except of
lines 102-105 shows the inline error message instead of the image. -/
def render_chart (ok : String → Bool) (p : Panel) : PanelRender :=
  let url := resolvedUrl p.filename
  { header := p.icon ++ " " ++ p.title
    image :=
      if ok url then ImageSlot.image url
      else ImageSlot.error ("Failed to load image: " ++ p.filename)
    explanation := p.explanation }

/-- Lines 122-132. -/
def trainingAnimPanel : Panel :=
  { filename := "portfolio_value_training_animated.gif"
    title := "Time Machine: Training Period (2010-2020)"
    explanation := "The Race is On: Blue (HODL) starts fast, extremely volatile. Purple (DCA): consistent upward trend. Orange (Quant) performs decently in this training period."
    icon := "🎬" }

/-- Lines 134-144. -/
def testAnimPanel : Panel :=
  { filename := "portfolio_value_test_animated.gif"
    title := "Time Machine: Test Period (2023-2024)"
    explanation := "The Reality Check: the Orange line (Quant) struggles to keep up with the simple HODL and DCA strategies. This demonstrates Overfitting."
    icon := "🎬" }

/-- Lines 148-158. -/
def trainingChartPanel : Panel :=
  { filename := "portfolio_value_training.png"
    title := "Full History: Training Set"
    explanation := "10 Years of Data: the Y-axis is a Standard Linear Scale, looking at the raw dollar value growth."
    icon := "📈" }

/-- Lines 160-170. -/
def testChartPanel : Panel :=
  { filename := "portfolio_value_test.png"
    title := "Recent Performance: Test Set (The Crash)"
    explanation := "Where the Quant Strategy Failed: the Orange Line (Quant) flatlines at the bottom while Blue (HODL) and Purple (DCA) rallied with the market."
    icon := "📉" }

/-- Lines 194-204. -/
def factorWeightsPanel : Panel :=
  { filename := "factor_weights_en.png"
    title := "Feature Importance: What matters?"
    explanation := "The Decision Makers: Taller Bars = Higher Importance. The algorithm looks at these technical indicators to decide whether to Buy or Sell."
    icon := "🧠" }

/-- Lines 207-217. -/
def positionChangesPanel : Panel :=
  { filename := "position_changes.png"
    title := "Market Timing (Position Changes)"
    explanation := "Buy or Sell? Blue Area (1.0): Full Bitcoin. White Area (0.0): Cash (USDT)."
    icon := "🚥" }

/-- Lines 220-230. -/
def cumulativeTradesPanel : Panel :=
  { filename := "cumulative_trades.png"
    title := "Trading Frequency"
    explanation := "Is the Robot Hyperactive? Steeper Slope = More Frequent Trading. HODL is a flat line (1 trade); Quant trades hundreds of times."
    icon := "💸" }

/-- All render_chart calls of the three tabs, in source order. -/
def allPanels : List Panel :=
  [trainingAnimPanel, testAnimPanel, trainingChartPanel, testChartPanel,
   factorWeightsPanel, positionChangesPanel, cumulativeTradesPanel]

/-- The whole rendered page: the simulation result, the three KPIs, the
comparison table and the rendered panels. -/
structure Page where
  result : SimulationResult
  kpis : List Metric
  table : TableData
  panelRenders : List PanelRender

/-- The full render cycle: the scaling computation of lines 36-42 runs
first and does not consult the image oracle; the panels are rendered
independently of it and of each other. -/
def renderPage (initial_investment : ℤ) (ok : String → Bool) : Page :=
  let r := compute initial_investment
  { result := r
    kpis := [hodlMetric r, dcaMetric r, quantMetric r]
    table := table_data r
    panelRenders := allPanels.map (render_chart ok) }

end Dashboard

namespace Dashboard

/-- Sanity check: the currency format at the baseline values. -/
theorem formatMoney_baseline :
    formatMoney 46009 = "$46,009" ∧ formatMoney 31328 = "$31,328" ∧
      formatMoney 18156 = "$18,156" := by
  refine ⟨?_, ?_, ?_⟩ <;> decide

/-- Sanity check: the rounding of the currency format is to the nearest
integer (half to even) and the grouping handles small and large values. -/
theorem formatMoney_rounding :
    formatMoney (46009 / 100 : ℚ) = "$460" ∧
      formatMoney (4600900 : ℚ) = "$4,600,900" ∧
      rndFrac 46009 100 = 460 ∧ rndFrac 5 2 = 2 ∧ rndFrac 7 2 = 4 := by
  refine ⟨?_, ?_, ?_, ?_, ?_⟩
  · have h : (46009 / 100 : ℚ) = Rat.divInt 46009 100 := by
      rw [Rat.divInt_eq_div]; norm_num
    rw [h]; decide
  · decide
  · decide
  · decide
  · decide

/-- C1: for every initial capital c with 100 ≤ c ≤ 1000000, the scaled
equities equal 46009, 31328 and 18156 times the multiplier c / 10000. -/
theorem compute_scaled_equity (c : ℤ) (h1 : 100 ≤ c) (h2 : c ≤ 1000000) :
    (compute c).multiplier = (c : ℚ) / 10000 ∧
      (compute c).hodl_val = 46009 * ((c : ℚ) / 10000) ∧
      (compute c).dca_val = 31328 * ((c : ℚ) / 10000) ∧
      (compute c).quant_val = 18156 * ((c : ℚ) / 10000) :=
  ⟨rfl, rfl, rfl, rfl⟩

/-- C1 witness at the default capital 10000. -/
theorem compute_scaled_equity_witness :
    (compute 10000).multiplier = (10000 : ℚ) / 10000 ∧
      (compute 10000).hodl_val = 46009 * ((10000 : ℚ) / 10000) ∧
      (compute 10000).dca_val = 31328 * ((10000 : ℚ) / 10000) ∧
      (compute 10000).quant_val = 18156 * ((10000 : ℚ) / 10000) :=
  compute_scaled_equity 10000 (by decide) (by decide)

/-- C2: for every valid initial capital, the scaled equities keep the
strict ordering HODL > DCA > Quant. -/
theorem compute_ordering (c : ℤ) (h1 : 100 ≤ c) (h2 : c ≤ 1000000) :
    (compute c).hodl_val > (compute c).dca_val ∧
      (compute c).dca_val > (compute c).quant_val := by
  have hc : (0 : ℚ) < (c : ℚ) := by exact_mod_cast lt_of_lt_of_le (by norm_num) h1
  have hm : (0 : ℚ) < (c : ℚ) / base_capital := by
    apply div_pos hc; norm_num [base_capital]
  constructor
  · show (31328 : ℚ) * ((c : ℚ) / base_capital) < 46009 * ((c : ℚ) / base_capital)
    exact mul_lt_mul_of_pos_right (by norm_num) hm
  · show (18156 : ℚ) * ((c : ℚ) / base_capital) < 31328 * ((c : ℚ) / base_capital)
    exact mul_lt_mul_of_pos_right (by norm_num) hm

/-- C2 witness at capital 100. -/
theorem compute_ordering_witness :
    (compute 100).hodl_val > (compute 100).dca_val ∧
      (compute 100).dca_val > (compute 100).quant_val :=
  compute_ordering 100 (by decide) (by decide)

/-- C5: boundary values: compute 100 gives 460.09 / 313.28 / 181.56,
compute 10000 gives the baselines unchanged, and compute 1000000 gives
4600900 for HODL. -/
theorem compute_boundaries :
    (compute 100).hodl_val = 460.09 ∧ (compute 100).dca_val = 313.28 ∧
      (compute 100).quant_val = 181.56 ∧
      (compute 10000).hodl_val = 46009 ∧ (compute 10000).dca_val = 31328 ∧
      (compute 10000).quant_val = 18156 ∧
      (compute 1000000).hodl_val = 4600900 := by
  refine ⟨?_, ?_, ?_, ?_, ?_, ?_, ?_⟩ <;> norm_num [compute, base_capital]

/-- C3: the percent-difference column of the comparison table holds the
fixed strings -31.9% and -60.5% for every capital in range; indeed it is
the same constant list for every simulation result whatsoever, so it is
never recomputed from the live scaled values. -/
theorem table_percentages_static (c : ℤ) (h1 : 100 ≤ c) (h2 : c ≤ 1000000) :
    (table_data (compute c)).totalReturnVsHodl = ["-", "-31.9%", "-60.5%"] ∧
      ∀ r : SimulationResult,
        (table_data r).totalReturnVsHodl = ["-", "-31.9%", "-60.5%"] :=
  ⟨rfl, fun _ => rfl⟩

/-- C3 witness at the default capital 10000. -/
theorem table_percentages_static_witness :
    (table_data (compute 10000)).totalReturnVsHodl =
        ["-", "-31.9%", "-60.5%"] ∧
      ∀ r : SimulationResult,
        (table_data r).totalReturnVsHodl = ["-", "-31.9%", "-60.5%"] :=
  table_percentages_static 10000 (by decide) (by decide)

/-- C4: if the image resource of one panel is unreachable, that panel
shows the inline error message in place of the image and keeps its
explanation text, the simulation result is unchanged (it never consults
the image oracle), and every panel whose resource is reachable still
renders its image. -/
theorem panel_fault_isolation (c : ℤ) (ok : String → Bool) (p : Panel)
    (hfail : ok (resolvedUrl p.filename) = false) :
    (render_chart ok p).image =
        ImageSlot.error ("Failed to load image: " ++ p.filename) ∧
      (render_chart ok p).explanation = p.explanation ∧
      (renderPage c ok).result = compute c ∧
      ∀ q : Panel, ok (resolvedUrl q.filename) = true →
        (render_chart ok q).image = ImageSlot.image (resolvedUrl q.filename) := by
  refine ⟨?_, rfl, rfl, ?_⟩
  · simp [render_chart, hfail]
  · intro q hq
    simp [render_chart, hq]

/-- An oracle under which only the factor-weights image is unreachable. -/
def demoOk : String → Bool := fun s =>
  !(s == resolvedUrl "factor_weights_en.png")

/-- C4 witness: with only the factor-weights resource unreachable, that
panel shows the error message, the simulation result is intact, and the
position-changes panel still renders its image. -/
theorem panel_fault_isolation_witness :
    (render_chart demoOk factorWeightsPanel).image =
        ImageSlot.error ("Failed to load image: factor_weights_en.png") ∧
      (render_chart demoOk factorWeightsPanel).explanation =
        factorWeightsPanel.explanation ∧
      (renderPage 10000 demoOk).result = compute 10000 ∧
      (render_chart demoOk positionChangesPanel).image =
        ImageSlot.image (resolvedUrl "position_changes.png") := by
  have h := panel_fault_isolation 10000 demoOk factorWeightsPanel (by decide)
  exact ⟨h.1, h.2.1, h.2.2.1, h.2.2.2 positionChangesPanel (by decide)⟩

/-- C6: for every panel filename the resolved URL is exactly the base URL,
a single slash, and the filename; at factor_weights_en.png the result is
the full literal URL, and past the scheme it has no double slash. -/
theorem resolved_url_exact :
    (∀ f : String, resolvedUrl f = BASE_URL ++ "/" ++ f) ∧
      resolvedUrl "factor_weights_en.png" =
        "https://raw.githubusercontent.com/lucky11chances/bitcoin-investment-strategies-draft/main/visualization/factor_weights_en.png" ∧
      hasDoubleSlashList
        ((resolvedUrl "factor_weights_en.png").toList.drop 8) = false :=
  ⟨fun _ => rfl, by decide, by decide⟩

/-- C6 witness: instantiation at the cumulative-trades filename. -/
theorem resolved_url_exact_witness :
    resolvedUrl "cumulative_trades.png" =
      BASE_URL ++ "/" ++ "cumulative_trades.png" :=
  resolved_url_exact.1 "cumulative_trades.png"

/-- C7: every KPI displays its scaled equity value as a dollar sign
followed by the value rounded to an integer with comma grouping, and the
final-equity column of the table uses the same currency strings. -/
theorem kpi_currency_format (c : ℤ) (h1 : 100 ≤ c) (h2 : c ≤ 1000000) :
    (hodlMetric (compute c)).value =
        "$" ++ intCommaFmt (rnd0f (compute c).hodl_val) ∧
      (dcaMetric (compute c)).value =
        "$" ++ intCommaFmt (rnd0f (compute c).dca_val) ∧
      (quantMetric (compute c)).value =
        "$" ++ intCommaFmt (rnd0f (compute c).quant_val) ∧
      (table_data (compute c)).finalEquity =
        [(hodlMetric (compute c)).value, (dcaMetric (compute c)).value,
         (quantMetric (compute c)).value] :=
  ⟨rfl, rfl, rfl, rfl⟩

/-- C7 witness at the default capital 10000. -/
theorem kpi_currency_format_witness :
    (hodlMetric (compute 10000)).value =
        "$" ++ intCommaFmt (rnd0f (compute 10000).hodl_val) ∧
      (dcaMetric (compute 10000)).value =
        "$" ++ intCommaFmt (rnd0f (compute 10000).dca_val) ∧
      (quantMetric (compute 10000)).value =
        "$" ++ intCommaFmt (rnd0f (compute 10000).quant_val) ∧
      (table_data (compute 10000)).finalEquity =
        [(hodlMetric (compute 10000)).value, (dcaMetric (compute 10000)).value,
         (quantMetric (compute 10000)).value] :=
  kpi_currency_format 10000 (by decide) (by decide)

/-- C8: the simulator is deterministic and pure: two evaluations at the
same capital agree, and the simulation result of a full page render does
not depend on the image-fetch oracle, the only outside influence in the
model. -/
theorem compute_deterministic (c : ℤ) (h1 : 100 ≤ c) (h2 : c ≤ 1000000) :
    compute c = compute c ∧
      ∀ ok1 ok2 : String → Bool,
        (renderPage c ok1).result = (renderPage c ok2).result ∧
          (renderPage c ok1).result = compute c :=
  ⟨rfl, fun _ _ => ⟨rfl, rfl⟩⟩

/-- C8 witness at the default capital 10000 with two concrete oracles. -/
theorem compute_deterministic_witness :
    compute 10000 = compute 10000 ∧
      (renderPage 10000 (fun _ => true)).result =
        (renderPage 10000 (fun _ => false)).result ∧
      (renderPage 10000 (fun _ => true)).result = compute 10000 :=
  ⟨(compute_deterministic 10000 (by decide) (by decide)).1,
    (compute_deterministic 10000 (by decide) (by decide)).2
      (fun _ => true) (fun _ => false)⟩

/-- C9: for every positive capital, the relative difference of the scaled
DCA and Quant equities against HODL equals the baseline ratio, which
rounds to -31.9 percent and -60.5 percent respectively: the fixed table
strings agree with the live scaled values at every valid input. -/
theorem relative_difference_scale_invariant (c : ℤ) (h : 0 < c) :
    ((compute c).dca_val - (compute c).hodl_val) / (compute c).hodl_val =
        ((31328 : ℚ) - 46009) / 46009 ∧
      ((compute c).quant_val - (compute c).hodl_val) / (compute c).hodl_val =
        ((18156 : ℚ) - 46009) / 46009 ∧
      roundPermille (31328 - 46009) 46009 = -319 ∧
      roundPermille (18156 - 46009) 46009 = -605 ∧
      (table_data (compute c)).totalReturnVsHodl =
        ["-", "-31.9%", "-60.5%"] := by
  have hc : ((c : ℚ)) ≠ 0 := by
    have : (0 : ℚ) < (c : ℚ) := by exact_mod_cast h
    exact ne_of_gt this
  have hm : ((c : ℚ)) / base_capital ≠ 0 := by
    apply div_ne_zero hc; norm_num [base_capital]
  refine ⟨?_, ?_, by decide, by decide, rfl⟩
  · show ((31328 : ℚ) * ((c : ℚ) / base_capital) -
        46009 * ((c : ℚ) / base_capital)) /
        (46009 * ((c : ℚ) / base_capital)) = ((31328 : ℚ) - 46009) / 46009
    rw [show (31328 : ℚ) * ((c : ℚ) / base_capital) -
        46009 * ((c : ℚ) / base_capital) =
        ((31328 : ℚ) - 46009) * ((c : ℚ) / base_capital) by ring]
    exact mul_div_mul_right _ _ hm
  · show ((18156 : ℚ) * ((c : ℚ) / base_capital) -
        46009 * ((c : ℚ) / base_capital)) /
        (46009 * ((c : ℚ) / base_capital)) = ((18156 : ℚ) - 46009) / 46009
    rw [show (18156 : ℚ) * ((c : ℚ) / base_capital) -
        46009 * ((c : ℚ) / base_capital) =
        ((18156 : ℚ) - 46009) * ((c : ℚ) / base_capital) by ring]
    exact mul_div_mul_right _ _ hm

/-- C9 witness at the default capital 10000. -/
theorem relative_difference_scale_invariant_witness :
    ((compute 10000).dca_val - (compute 10000).hodl_val) /
        (compute 10000).hodl_val = ((31328 : ℚ) - 46009) / 46009 ∧
      ((compute 10000).quant_val - (compute 10000).hodl_val) /
        (compute 10000).hodl_val = ((18156 : ℚ) - 46009) / 46009 ∧
      roundPermille (31328 - 46009) 46009 = -319 ∧
      roundPermille (18156 - 46009) 46009 = -605 ∧
      (table_data (compute 10000)).totalReturnVsHodl =
        ["-", "-31.9%", "-60.5%"] :=
  relative_difference_scale_invariant 10000 (by decide)

/-- C10: for every capital in range, the Quant KPI delta is the fixed
string -60 percent vs HODL, while the table shows -60.5 percent for
Quant, and the two strings differ. -/
theorem quant_delta_static (c : ℤ) (h1 : 100 ≤ c) (h2 : c ≤ 1000000) :
    (quantMetric (compute c)).delta = "-60% vs HODL" ∧
      (table_data (compute c)).totalReturnVsHodl.getD 2 "" = "-60.5%" ∧
      (quantMetric (compute c)).delta ≠
        (table_data (compute c)).totalReturnVsHodl.getD 2 "" :=
  ⟨rfl, rfl, by show ("-60% vs HODL" : String) ≠ "-60.5%"; decide⟩

/-- C10 witness at the default capital 10000. -/
theorem quant_delta_static_witness :
    (quantMetric (compute 10000)).delta = "-60% vs HODL" ∧
      (table_data (compute 10000)).totalReturnVsHodl.getD 2 "" = "-60.5%" ∧
      (quantMetric (compute 10000)).delta ≠
        (table_data (compute 10000)).totalReturnVsHodl.getD 2 "" :=
  quant_delta_static 10000 (by decide) (by decide)

end Dashboard
